import Mathlib

/-!
Verification of the lock manager, session store, history store, input
classifier and command executor of the Python multi-session terminal.

The Python modules are shallowly embedded: the persisted JSON stores
(lock table, session metadata, per-session history files, per-process
binding files) become explicit state values, `time.time()` becomes an
explicit rational-valued parameter, and the filesystem / OS / dialog
collaborators become oracle fields of a `World` structure.  Functions
keep the names of their Python sources where Lean allows it.
-/

namespace Terminal

/-! ### Lock manager (terminal.py lines 19-72)

The lock table `data/resource_locks.json` is a JSON object mapping a
resource path to `{'session_id': ..., 'timestamp': ...}`.  A Python dict
is modelled extensionally as a function `String → Option LockInfo`;
`time.time()` values are modelled as rationals. -/

structure LockInfo where
  session_id : String
  timestamp : Rat
  deriving DecidableEq, Repr

/-- The persisted lock table (contents of `data/resource_locks.json`). -/

def LockSt := String → Option LockInfo

/-- Python dict assignment `locks[path] = info` (extensional view). -/

def lockInsert (p : String) (v : LockInfo) (T : LockSt) : LockSt :=
  fun q => if q = p then some v else T q

/-- Python `del locks[path]` (extensional view). -/

def lockErase (p : String) (T : LockSt) : LockSt :=
  fun q => if q = p then none else T q

/-- terminal.py lines 43-46: the purge loop of `_acquire_lock`, deleting
every entry with `current_time - timestamp > 300`. -/

def purgeLocks (now : Rat) (T : LockSt) : LockSt :=
  fun p =>
    match T p with
    | some info => if now - info.timestamp > 300 then none else some info
    | none => none

/-- terminal.py lines 38-58, `_acquire_lock(session_id, resource_path)`
as a transformer of the persisted table.  It loads the table, purges
expired entries in memory, fails if the purged table holds the path for
a different session — in which case it returns `False` **without
saving**, so the persisted table is the original one — and otherwise
inserts the lock stamped `now` and saves the purged, updated table. -/

def _acquire_lock (session_id resource_path : String) (now : Rat)
    (T : LockSt) : Bool × LockSt :=
  match purgeLocks now T resource_path with
  | some info =>
      if info.session_id ≠ session_id then
        (false, T)
      else
        (true, lockInsert resource_path ⟨session_id, now⟩ (purgeLocks now T))
  | none => (true, lockInsert resource_path ⟨session_id, now⟩ (purgeLocks now T))

/-- terminal.py lines 60-65, `_release_lock(session_id, resource_path)`:
deletes the entry only when it is held by `session_id` (the table is
saved only in that case; otherwise it is untouched either way). -/

def _release_lock (session_id resource_path : String) (T : LockSt) : LockSt :=
  match T resource_path with
  | some info =>
      if info.session_id = session_id then lockErase resource_path T else T
  | none => T

/-- terminal.py lines 67-72, `_check_lock(session_id, resource_path)`:
returns the holder when the path is present with a *different* session
id; note that no timestamp is consulted. -/

def _check_lock (session_id resource_path : String) (T : LockSt) :
    Option String :=
  match T resource_path with
  | some info =>
      if info.session_id ≠ session_id then some info.session_id else none
  | none => none

/-- The purged table maps `p` to a lock held by a session other than `s`. -/

def heldByOther (s p : String) (T : LockSt) : Prop :=
  ∃ info, T p = some info ∧ info.session_id ≠ s

instance (s p : String) (T : LockSt) : Decidable (heldByOther s p T) := by
  unfold heldByOther
  match h : T p with
  | some info =>
      exact decidable_of_iff (info.session_id ≠ s)
        ⟨fun hne => ⟨info, rfl, hne⟩, fun ⟨i, hi, hne⟩ => by
          cases hi; exact hne⟩
  | none =>
      exact isFalse (fun ⟨i, hi, _⟩ => by cases hi)

/-- A lock table with an expired entry on `"q"` (age 400 s at time 400)
and an unexpired entry on `"p"` held by session `"s2"`. -/

def c1Table : LockSt := fun q =>
  if q = "p" then some ⟨"s2", 399⟩
  else if q = "q" then some ⟨"s2", 0⟩ else none

/-- A lock table holding `"p"` for session `"a"` since time 0. -/

def c2Table : LockSt := fun q =>
  if q = "p" then some ⟨"a", 0⟩ else none

end Terminal

namespace History

/-! ### History store (enhanced_history.py, history.py)

The per-session history files `data/sessions/<sid>.json` are modelled as
a total map from session id to the stored command list; a missing or
corrupt file loads as `[]` (history.py lines 19-29), which the map
represents directly. -/

/-- The persisted per-session history store. -/

def HistSt := String → List String

/-- enhanced_history.py lines 54-72, `load_session_history`. -/

def load_session_history (st : HistSt) (sid : String) : List String := st sid

/-- enhanced_history.py lines 74-88, `save_session_history`. -/

def save_session_history (st : HistSt) (sid : String) (commands : List String) :
    HistSt :=
  fun q => if q = sid then commands else st q

/-- enhanced_history.py lines 90-113, `EnhancedHistoryManager.add_command`:
loads the history, appends the command unless it equals the last entry
(`if not history or history[-1] != command`), and persists the list.
(The in-memory caches the method also refreshes are not part of the
persisted history the claim is about.) -/

def add_command (st : HistSt) (sid command : String) : HistSt :=
  let history := load_session_history st sid
  if history = [] ∨ history.getLast? ≠ some command then
    save_session_history st sid (history ++ [command])
  else
    save_session_history st sid history

end History

namespace Classifier

/-! ### Input classifier (unified_processor.py lines 28-245)

Pure string helpers mirroring the Python primitives used by
`UnifiedProcessor._classify_input`.  Inputs in the claims are ASCII, for
which the ASCII treatment of `str.lower`, `\s` and `\w` below coincides
with Python's. -/

/-- Python's `\s` class / `str.split()` separator set (ASCII). -/

def pyIsSpace (c : Char) : Bool :=
  c = ' ' || c = '\t' || c = '\n' || c = '\r' || c = '\x0b' || c = '\x0c'

/-- Python's `\w` class (ASCII): letters, digits and underscore. -/

def pyIsWordChar (c : Char) : Bool :=
  c.isAlpha || c.isDigit || c = '_'

/-- Python `str.lower()` (ASCII case folding). -/

def pyLowerChar (c : Char) : Char :=
  if 'A' ≤ c && c ≤ 'Z' then Char.ofNat (c.toNat + 32) else c

def pyLower (s : String) : String := String.mk (s.data.map pyLowerChar)

/-- Python `str.strip()` with no argument: drop whitespace at both ends. -/

def pyStrip (s : String) : String :=
  String.mk (((s.data.dropWhile pyIsSpace).reverse.dropWhile pyIsSpace).reverse)

/-- Python `str.split()` with no argument: split on whitespace runs,
dropping empty fields. -/

def pySplitGo : List Char → List Char → List String
  | [], acc => if acc.isEmpty then [] else [String.mk acc.reverse]
  | ch :: cs, acc =>
      if pyIsSpace ch then
        if acc.isEmpty then pySplitGo cs []
        else String.mk acc.reverse :: pySplitGo cs []
      else pySplitGo cs (ch :: acc)

def pySplit (s : String) : List String := pySplitGo s.data []

/-- Python's substring test `needle in hay`. -/

def strContainsAux (needle : List Char) : List Char → Bool
  | [] => needle.isEmpty
  | ch :: cs => needle.isPrefixOf (ch :: cs) || strContainsAux needle cs

def strContains (hay needle : String) : Bool :=
  strContainsAux needle.data hay.data

/-- Matcher for a literal regex fragment: consume `lit` from the front. -/

def dropLit : List Char → List Char → Option (List Char)
  | [], cs => some cs
  | _ :: _, [] => none
  | l :: ls, ch :: cs => if ch = l then dropLit ls cs else none

/-- Matcher for `\s+` (maximal munch; equivalent to the backtracking
semantics here because every continuation in the patterns below starts
with a non-whitespace literal or `\w`). -/

def dropSpaces1 : List Char → Option (List Char)
  | [] => none
  | ch :: cs => if pyIsSpace ch then some (cs.dropWhile pyIsSpace) else none

/-- Matcher for a final `(\w+)$` group (maximal munch is exact since the
group is anchored at the end). -/

def captureWordEnd (cs : List Char) : Option String :=
  if cs.isEmpty then none
  else if cs.all pyIsWordChar then some (String.mk cs) else none

/-- Matcher for `^w₁\s+w₂\s+…\s+(\w+)$`, the shape of every pattern in
`_is_simple_folder_creation` / `_is_simple_file_creation`. -/

def matchWordsName : List String → List Char → Option String
  | [], cs => captureWordEnd cs
  | w :: ws, cs =>
      match dropLit w.data cs with
      | some cs' =>
          match dropSpaces1 cs' with
          | some cs'' => matchWordsName ws cs''
          | none => none
      | none => none

/-- `re.match` for the `^word\s+` (`plus = true`) and `^word\s*`
(`plus = false`) shapes of `direct_command_patterns`. -/

def matchPrefixPat (head : String) (plus : Bool) (s : String) : Bool :=
  match dropLit head.data s.data with
  | some rest => if plus then (dropSpaces1 rest).isSome else true
  | none => false

/-- unified_processor.py lines 36-65: `direct_command_patterns`, as
(command word, whether the pattern ends in `\s+` rather than `\s*`). -/

def direct_command_patterns : List (String × Bool) :=
  [("cd", true), ("ls", false), ("pwd", false), ("exit", false),
   ("help", false), ("clear", false), ("mkdir", true), ("touch", true),
   ("rm", true), ("cp", true), ("mv", true), ("cat", true), ("edit", true),
   ("find", true), ("grep", true), ("ps", false), ("cpu", false),
   ("mem", false), ("df", false), ("date", false), ("whoami", false),
   ("uname", false), ("echo", true), ("history", false), ("stats", false),
   ("newterm", false), ("sessions", false), ("switch", true)]

/-- unified_processor.py lines 28-33: `chat_keywords`. -/

def chat_keywords : List String :=
  ["hello", "hi", "hey", "thanks", "thank you", "please", "help me",
   "can you", "could you", "would you", "what is", "how do", "why",
   "explain", "tell me", "show me", "i need", "i want", "i am",
   "my name is", "i am working on", "i have a problem", "i need help"]

/-- unified_processor.py lines 190-201: folder-creation patterns (the
literal words before the `(\w+)$` group). -/

def folder_patterns : List (List String) :=
  [["create", "folder"], ["make", "folder"], ["new", "folder"],
   ["create", "directory"], ["make", "directory"], ["new", "directory"],
   ["create", "folder", "called"], ["make", "folder", "called"],
   ["create", "directory", "called"], ["make", "directory", "called"]]

/-- unified_processor.py lines 208-214: file-creation patterns. -/

def file_patterns : List (List String) :=
  [["create", "file"], ["make", "file"], ["new", "file"],
   ["create", "file", "called"], ["make", "file", "called"]]

/-- unified_processor.py lines 186-202, `_is_simple_folder_creation`. -/

def _is_simple_folder_creation (text : String) : Bool :=
  folder_patterns.any fun ws => (matchWordsName ws (pyLower text).data).isSome

/-- unified_processor.py lines 204-215, `_is_simple_file_creation`. -/

def _is_simple_file_creation (text : String) : Bool :=
  file_patterns.any fun ws => (matchWordsName ws (pyLower text).data).isSome

/-- unified_processor.py lines 217-226, `_is_system_query`. -/

def system_keywords : List String :=
  ["cpu", "memory", "disk", "process", "system", "info",
   "usage", "performance", "status", "running", "active",
   "what time", "current time", "date", "who am i", "user",
   "files", "directory", "folder", "list", "show me",
   "what files", "what is my", "how much", "how many"]

def _is_system_query (text : String) : Bool :=
  system_keywords.any fun k => strContains text k

/-- unified_processor.py lines 177-184, `_is_file_operation`. -/

def file_keywords : List String :=
  ["create", "make", "new", "file", "folder", "directory",
   "delete", "remove", "copy", "move", "rename", "edit",
   "open", "read", "write", "save", "find", "search"]

def _is_file_operation (text : String) : Bool :=
  file_keywords.any fun k => strContains text k

def _is_chat_input (text : String) : Bool :=
  chat_keywords.any fun k => strContains text k

/-- unified_processor.py lines 232-245, `_is_natural_language`: multi-word
input containing an action or question word (substring test, as in the
source). -/

def action_words : List String :=
  ["create", "make", "show", "list", "find", "search",
   "move", "copy", "delete", "remove", "open", "read",
   "write", "save", "edit", "change", "update", "modify",
   "what", "how", "where", "when", "why", "which", "who"]

def _is_natural_language (text : String) : Bool :=
  if (pySplit text).length > 1 then
    action_words.any fun w => strContains text w
  else false

/-- unified_processor.py lines 143-144: the single bare command words. -/

def single_word_commands : List String :=
  ["ls", "pwd", "ps", "cpu", "mem", "df", "date", "whoami", "uname",
   "clear", "exit", "history", "stats", "newterm", "sessions"]

/-- unified_processor.py lines 111-114 / 140-141: conversation toggles. -/

def toggle_words : List String := ["chat", "conversation", "talk", "converse"]

/-- unified_processor.py lines 135-175, `UnifiedProcessor._classify_input`,
preserving the precedence chain exactly. -/

def _classify_input (user_input : String) : String :=
  let user_input_lower := pyLower user_input
  if toggle_words.contains (pyLower user_input) then "conversation_toggle"
  else if (pySplit user_input).length = 1 &&
      single_word_commands.contains user_input then "direct_command"
  else if direct_command_patterns.any
      (fun pat => matchPrefixPat pat.1 pat.2 user_input) then "direct_command"
  else if _is_simple_folder_creation user_input_lower then
    "simple_folder_creation"
  else if _is_simple_file_creation user_input_lower then
    "simple_file_creation"
  else if _is_system_query user_input_lower then "system_query"
  else if _is_file_operation user_input_lower then "file_operation"
  else if _is_natural_language user_input_lower then "natural_language"
  else if _is_chat_input user_input_lower then "chat"
  else "unknown"

/-- unified_processor.py lines 278-299: the folder-name extraction of
`_handle_simple_folder_creation` (first matching pattern's group). -/

def extract_folder_name (user_input : String) : Option String :=
  (folder_patterns.map fun ws => matchWordsName ws (pyLower user_input).data).foldr
    (fun r acc => match r with | some n => some n | none => acc) none

/-- unified_processor.py lines 78-92: the classification performed by
`process_input` — the input is stripped, an empty result is typed
`"empty"`, and otherwise (outside conversation mode) the dispatch follows
`_classify_input`. -/

def process_input_kind (user_input : String) : String :=
  let stripped := pyStrip user_input
  if stripped = "" then "empty" else _classify_input stripped

end Classifier

namespace SessionManager

/-! ### Session store (session_manager.py)

The persisted artifacts become fields of `SMState`: the set of
`data/sessions/<id>.json` files (`sessions` — stored as a list; only its
membership and length matter, so the lexicographic sort in
`list_sessions` is immaterial), the metadata table
`data/session_info.json` (`info`), the history-file contents
(`histories`; a missing file loads as `[]`), the pointer file
`data/current_session.txt` (`current`), the per-process binding files
`data/process_<pid>_session.txt` (`bindings`) and the process's working
directory (`cwd`).  `time.time()` is a rational parameter;
`int(time.time())` a natural-number parameter. -/

/-- Python decimal formatting `str(n)` / f-string interpolation of an
`int`, as the digit list.  Fuel-based so that it evaluates by `rfl`. -/

def digitChar (d : Nat) : Char := Char.ofNat (48 + d)

def natDecimalAux (fuel n : Nat) : List Char :=
  match fuel with
  | 0 => []
  | fuel + 1 =>
      if n < 10 then [digitChar n]
      else natDecimalAux fuel (n / 10) ++ [digitChar (n % 10)]

def natDecimal (n : Nat) : List Char := natDecimalAux (n + 1) n

/-- f-string `f"session_{pid}_{timestamp}"` of
`_create_unique_session_for_process` (session_manager.py line 67). -/

def mkAutoSessionId (pid ts : Nat) : String :=
  String.mk ("session_".data ++ (natDecimal pid ++ '_' :: natDecimal ts))

/-- f-string `f"session_{len(sessions) + 1}"` of `create_new_session`
(session_manager.py line 93). -/

def mkSeqSessionId (n : Nat) : String :=
  String.mk ("session_".data ++ natDecimal n)

/-- Decimal decoding, used to prove `natDecimal` injective. -/

def decodeDec (cs : List Char) : Nat :=
  cs.foldl (fun acc c => acc * 10 + (c.toNat - 48)) 0

/-- Auto-generated session ids for distinct process ids are distinct. -/

structure SessInfo where
  working_directory : String
  created_at : Rat
  last_accessed : Rat
  process_id : Option Nat

structure SMState where
  sessions : List String
  info : String → Option SessInfo
  histories : String → List String
  current : String
  bindings : Nat → Option String
  cwd : String

/-- Writing `data/sessions/<sid>.json` creates the file if missing. -/

def addSessionFile (sid : String) (sessions : List String) : List String :=
  if sid ∈ sessions then sessions else sessions ++ [sid]

/-- session_manager.py lines 90-112, `create_new_session`: allocates
`session_{len(list_sessions()) + 1}`, writes `[]` to its history file,
records metadata with the current directory and timestamps, saves, and
writes the id to `current_session.txt`. -/

def create_new_session (now : Rat) (st : SMState) : String × SMState :=
  let sid := mkSeqSessionId (st.sessions.length + 1)
  (sid,
    { st with
      sessions := addSessionFile sid st.sessions
      histories := fun q => if q = sid then [] else st.histories q
      info := fun q =>
        if q = sid then some ⟨st.cwd, now, now, none⟩ else st.info q
      current := sid })

/-- session_manager.py lines 62-88, `_create_unique_session_for_process`:
id `session_{pid}_{int(time.time())}`, empty history file, metadata with
the owning process id, and the process binding file; the global current
pointer is *not* written. -/

def _create_unique_session_for_process (pid ts : Nat) (now : Rat)
    (st : SMState) : String × SMState :=
  let sid := mkAutoSessionId pid ts
  (sid,
    { st with
      sessions := addSessionFile sid st.sessions
      histories := fun q => if q = sid then [] else st.histories q
      info := fun q =>
        if q = sid then some ⟨st.cwd, now, now, some pid⟩ else st.info q
      bindings := fun q => if q = pid then some sid else st.bindings q })

/-- session_manager.py lines 45-60, `get_current_session`: returns the
binding recorded for the calling process, creating a fresh
process-unique session when none exists. -/

def get_current_session (pid ts : Nat) (now : Rat) (st : SMState) :
    String × SMState :=
  match st.bindings pid with
  | some sid => (sid, st)
  | none => _create_unique_session_for_process pid ts now st

/-- session_manager.py lines 114-122, `list_sessions` (the sort only
fixes an order; membership and length are what the claims consume). -/

def list_sessions (st : SMState) : List String := st.sessions

/-- session_manager.py lines 147-167, `switch_session`: fails for an
unknown id touching nothing; otherwise bumps `last_accessed` (when
metadata exists), best-effort `chdir` to the recorded directory when it
still exists (`dirExists`; a failing `chdir` — `chdirOk = false` — is
swallowed), and records the id as current. -/

def switch_session (sid : String) (now : Rat) (dirExists : String → Bool)
    (chdirOk : Bool) (st : SMState) : Bool × SMState :=
  if sid ∈ st.sessions then
    let st1 :=
      match st.info sid with
      | some i =>
          { st with info := fun q =>
              if q = sid then some { i with last_accessed := now }
              else st.info q }
      | none => st
    let st2 :=
      match st1.info sid with
      | some i =>
          if dirExists i.working_directory && chdirOk then
            { st1 with cwd := i.working_directory }
          else st1
      | none => st1
    (true, { st2 with current := sid })
  else (false, st)

/-- Concrete state for the C7 witness: one stored session with metadata. -/

def c7State : SMState :=
  { sessions := ["session_1"]
    info := fun q =>
      if q = "session_1" then some ⟨"/root", 0, 0, none⟩ else none
    histories := fun _ => []
    current := "session_1"
    bindings := fun _ => none
    cwd := "/root" }

/-- Concrete state for the C8 counterexample: the only stored session is
`session_2` (its predecessor was removed, e.g. by `cleanup_old_sessions`),
with one recorded command. -/

def c8State : SMState :=
  { sessions := ["session_2"]
    info := fun _ => none
    histories := fun q => if q = "session_2" then ["ls"] else []
    current := "session_2"
    bindings := fun _ => none
    cwd := "/" }

/-- Concrete state for the C8 witness: stored sessions `["session_1"]`,
for which the allocated id `session_2` is fresh. -/

def c8FreshState : SMState :=
  { sessions := ["session_1"]
    info := fun _ => none
    histories := fun q => if q = "session_1" then ["pwd"] else []
    current := "session_1"
    bindings := fun _ => none
    cwd := "/" }

/-- Every process binding on disk was written by
`_create_unique_session_for_process`, so it has the shape
`session_{pid}_{timestamp}` for its own process id. -/

def WFBindings (st : SMState) : Prop :=
  ∀ p s, st.bindings p = some s → ∃ t, s = mkAutoSessionId p t

/-- Concrete state for the C9 witness: no bindings recorded yet. -/

def c9State : SMState :=
  { sessions := []
    info := fun _ => none
    histories := fun _ => []
    current := "session_1"
    bindings := fun _ => none
    cwd := "/" }

end SessionManager


namespace Terminal

/-! ### Command executor (terminal.py lines 74-484)

`run_command` is embedded over a `World` of oracles for the filesystem,
OS, psutil, subprocess and dialog collaborators.  Each fallible
primitive returns `Except m α` where `m` is the message of the exception
class the surrounding handler catches (`OSError` for the filesystem
primitives, arbitrary `Exception`s where the branch catches everything);
the interactive dialog constructors, which no branch-level handler
guards, may fail with a `PyErr` that only the top-level
`except Exception` of `run_command` converts to text.  Besides the
output string and the resulting lock table, the embedding returns the
trace of mutating filesystem calls and lock-manager calls the command
performed, in order.  Numeric rendering of psutil floats is opaque
oracle text; `time.time()` is frozen for the call (`World.now`). -/

/-- Trace events: lock-manager calls and mutating filesystem calls. -/
inductive Ev where
  | chk (path : String) (res : Option String)
  | acq (path : String) (ok : Bool)
  | rel (path : String)
  | fsChdir (path : String)
  | fsMkdir (path : String)
  | fsTouch (path : String)
  | fsRemove (path : String)
  | fsCopy (src dest : String)
  | fsMove (src dest : String)
  | fsWrite (path : String)
  deriving DecidableEq, Repr

/-- An uncaught Python exception (all `Exception`-derived). -/
inductive PyErr where
  | osError (msg : String)
  | exception (msg : String)
  deriving DecidableEq, Repr

def PyErr.msg : PyErr → String
  | .osError m => m
  | .exception m => m

/-- Failure modes of reading a file as UTF-8 (`cat`). -/
inductive ReadErr where
  | unicode (msg : String)
  | other (msg : String)
  deriving DecidableEq, Repr

/-- Outcome of the host-shell fallback `subprocess.run`. -/
inductive SubRes where
  | completed (returncode : Int) (stdout stderr : String)
  | timeout
  | notFound
  | failed (msg : String)
  deriving DecidableEq, Repr

structure World where
  now : Rat
  getcwd : String
  abspath : String → String
  pathExists : String → Bool
  isdir : String → Bool
  isfile : String → Bool
  listdir : String → Except String (List String)
  chdir : String → Except String Unit
  makedirs : String → Except String Unit
  touchFile : String → Except String Unit
  rmtree : String → Except String Unit
  removeFile : String → Except String Unit
  copytree : String → String → Except String Unit
  copy2 : String → String → Except String Unit
  moveFs : String → String → Except String Unit
  readUtf8 : String → Except ReadErr String
  readLatin1 : String → Except String String
  readForEdit : String → Except String String
  editInput : List String
  writeFile : String → Except String Unit
  cpuPercentStr : String
  memPercentStr : String
  memUsedB : Nat
  memTotalB : Nat
  psEntries : List (Option (Nat × String × String))
  walk : String → Except String (List (String × List String × List String))
  pathJoin : String → String → String
  readLines : String → Except String (List String)
  dateStr : String
  username : String
  platformSystem : String
  platformRelease : String
  platformMachine : String
  diskUsage : Except String (Nat × Nat × Nat × String)
  subprocessRun : String → List String → SubRes
  dialogCreateFolder : Except PyErr (Bool × String × String)
  dialogCreateFile : Except PyErr (Bool × String × String)
  dialogSelectCopySource : Except PyErr (Bool × String × String)
  dialogSelectMoveSource : Except PyErr (Bool × String × String)
  dialogSelectDest : String → String → Except PyErr (Bool × String × String)

/-- Result of one `run_command` body: output-or-exception, the persisted
lock table, and the trace of effecting calls. -/
structure CmdResult where
  result : Except PyErr String
  locks : LockSt
  trace : List Ev

/-- Python truthiness of `locked_by` (`None` or a session-id string):
`if locked_by:` is false for `None` *and* for an empty-string holder. -/
def truthy (o : Option String) : Bool :=
  match o with
  | some s => s != ""
  | none => false

def resourceBusyMsg : String := "Resource is being used by another session. Wait."

def srcBusyMsg : String := "Source resource is being used by another session. Wait."

def destBusyMsg : String := "Destination resource is being used by another session. Wait."

/-- Python `str(n)` for a natural number. -/
def natStrD (n : Nat) : String := String.mk (SessionManager.natDecimal n)

/-- Python format `f"{n:w}"`: numbers are right-aligned in width `w`. -/
def padNum (n w : Nat) : String :=
  String.mk (List.replicate (w - (SessionManager.natDecimal n).length) ' ')
    ++ natStrD n

/-- Python format `f"{s:<w}"` (and `f"{s:w}"` for strings): left-aligned. -/
def padStrRight (s : String) (w : Nat) : String :=
  s ++ String.mk (List.replicate (w - s.data.length) ' ')

/-- terminal.py lines 118-135: the `mkdir <target>` branch: lock check,
acquisition, `os.makedirs`, release on success and on `OSError`. -/
def mkdirCore (w : World) (session_id target : String) (L : LockSt) :
    CmdResult :=
  let tpath := w.abspath target
  let chkRes := _check_lock session_id tpath L
  if truthy chkRes then
    ⟨.ok resourceBusyMsg, L, [.chk tpath chkRes]⟩
  else
    let acq := _acquire_lock session_id tpath w.now L
    if acq.1 = false then
      ⟨.ok resourceBusyMsg, acq.2, [.chk tpath chkRes, .acq tpath false]⟩
    else
      match w.makedirs target with
      | .ok _ =>
          ⟨.ok ("Directory '" ++ target ++ "' created"),
            _release_lock session_id tpath acq.2,
            [.chk tpath chkRes, .acq tpath true, .fsMkdir target, .rel tpath]⟩
      | .error msg =>
          ⟨.ok ("Error: " ++ msg),
            _release_lock session_id tpath acq.2,
            [.chk tpath chkRes, .acq tpath true, .fsMkdir target, .rel tpath]⟩

/-- terminal.py lines 147-164: the `touch <target>` branch. -/
def touchCore (w : World) (session_id target : String) (L : LockSt) :
    CmdResult :=
  let tpath := w.abspath target
  let chkRes := _check_lock session_id tpath L
  if truthy chkRes then
    ⟨.ok resourceBusyMsg, L, [.chk tpath chkRes]⟩
  else
    let acq := _acquire_lock session_id tpath w.now L
    if acq.1 = false then
      ⟨.ok resourceBusyMsg, acq.2, [.chk tpath chkRes, .acq tpath false]⟩
    else
      match w.touchFile target with
      | .ok _ =>
          ⟨.ok ("File '" ++ target ++ "' created"),
            _release_lock session_id tpath acq.2,
            [.chk tpath chkRes, .acq tpath true, .fsTouch target, .rel tpath]⟩
      | .error msg =>
          ⟨.ok ("Error: " ++ msg),
            _release_lock session_id tpath acq.2,
            [.chk tpath chkRes, .acq tpath true, .fsTouch target, .rel tpath]⟩

/-- terminal.py lines 166-194: the `rm <target>` branch (existence is
checked before any locking; directories and files get different
messages). -/
def rmCore (w : World) (session_id target : String) (L : LockSt) : CmdResult :=
  if w.pathExists target = false then
    ⟨.ok ("Error: " ++ target ++ " does not exist"), L, []⟩
  else
    let tpath := w.abspath target
    let chkRes := _check_lock session_id tpath L
    if truthy chkRes then
      ⟨.ok resourceBusyMsg, L, [.chk tpath chkRes]⟩
    else
      let acq := _acquire_lock session_id tpath w.now L
      if acq.1 = false then
        ⟨.ok resourceBusyMsg, acq.2, [.chk tpath chkRes, .acq tpath false]⟩
      else
        match (if w.isdir target then w.rmtree target else w.removeFile target) with
        | .ok _ =>
            ⟨.ok (if w.isdir target then
                "Directory '" ++ target ++ "' removed"
              else "File '" ++ target ++ "' removed"),
              _release_lock session_id tpath acq.2,
              [.chk tpath chkRes, .acq tpath true, .fsRemove target, .rel tpath]⟩
        | .error msg =>
            ⟨.ok ("Error: " ++ msg),
              _release_lock session_id tpath acq.2,
              [.chk tpath chkRes, .acq tpath true, .fsRemove target, .rel tpath]⟩

/-- terminal.py lines 214-247: the `cp` branch once source and
destination are known: source-existence check, lock checks on both
paths, acquisition of both (releasing the source lock when the
destination acquisition fails), the copy, and release of both locks on
success and on `OSError`. -/
def cpCore (w : World) (session_id source dest : String) (L : LockSt) :
    CmdResult :=
  if w.pathExists source = false then
    ⟨.ok ("Error: " ++ source ++ " does not exist"), L, []⟩
  else
    let spath := w.abspath source
    let dpath := w.abspath dest
    let chkS := _check_lock session_id spath L
    if truthy chkS then
      ⟨.ok srcBusyMsg, L, [.chk spath chkS]⟩
    else
      let chkD := _check_lock session_id dpath L
      if truthy chkD then
        ⟨.ok destBusyMsg, L, [.chk spath chkS, .chk dpath chkD]⟩
      else
        let acqS := _acquire_lock session_id spath w.now L
        if acqS.1 = false then
          ⟨.ok srcBusyMsg, acqS.2,
            [.chk spath chkS, .chk dpath chkD, .acq spath false]⟩
        else
          let acqD := _acquire_lock session_id dpath w.now acqS.2
          if acqD.1 = false then
            ⟨.ok destBusyMsg, _release_lock session_id spath acqD.2,
              [.chk spath chkS, .chk dpath chkD, .acq spath true,
                .acq dpath false, .rel spath]⟩
          else
            ⟨.ok (match
                (if w.isdir source then w.copytree source dest
                  else w.copy2 source dest) with
              | .ok _ =>
                  if w.isdir source then
                    "Directory '" ++ source ++ "' copied to '" ++ dest ++ "'"
                  else "File '" ++ source ++ "' copied to '" ++ dest ++ "'"
              | .error m => "Error: " ++ m),
              _release_lock session_id dpath
                (_release_lock session_id spath acqD.2),
              [.chk spath chkS, .chk dpath chkD, .acq spath true,
                .acq dpath true, .fsCopy source dest, .rel spath, .rel dpath]⟩

/-- terminal.py lines 267-294: the `mv` branch once source and
destination are known (same locking protocol as `cp`, with
`shutil.move`). -/
def mvCore (w : World) (session_id source dest : String) (L : LockSt) :
    CmdResult :=
  if w.pathExists source = false then
    ⟨.ok ("Error: " ++ source ++ " does not exist"), L, []⟩
  else
    let spath := w.abspath source
    let dpath := w.abspath dest
    let chkS := _check_lock session_id spath L
    if truthy chkS then
      ⟨.ok srcBusyMsg, L, [.chk spath chkS]⟩
    else
      let chkD := _check_lock session_id dpath L
      if truthy chkD then
        ⟨.ok destBusyMsg, L, [.chk spath chkS, .chk dpath chkD]⟩
      else
        let acqS := _acquire_lock session_id spath w.now L
        if acqS.1 = false then
          ⟨.ok srcBusyMsg, acqS.2,
            [.chk spath chkS, .chk dpath chkD, .acq spath false]⟩
        else
          let acqD := _acquire_lock session_id dpath w.now acqS.2
          if acqD.1 = false then
            ⟨.ok destBusyMsg, _release_lock session_id spath acqD.2,
              [.chk spath chkS, .chk dpath chkD, .acq spath true,
                .acq dpath false, .rel spath]⟩
          else
            ⟨.ok (match w.moveFs source dest with
              | .ok _ => "Moved '" ++ source ++ "' to '" ++ dest ++ "'"
              | .error m => "Error: " ++ m),
              _release_lock session_id dpath
                (_release_lock session_id spath acqD.2),
              [.chk spath chkS, .chk dpath chkD, .acq spath true,
                .acq dpath true, .fsMove source dest, .rel spath, .rel dpath]⟩

/-- The lines typed into `edit`'s input loop up to the first `SAVE`;
`none` models `input()` raising `EOFError` when the stream ends first. -/
def collectEditLines : List String → Option (List String)
  | [] => none
  | l :: ls =>
      if Classifier.pyStrip l = "SAVE" then some []
      else (collectEditLines ls).map (l :: ·)

/-- terminal.py lines 317-357: the `edit <target>` branch; its
`except Exception` catches every fault of the read/input/write phase and
releases the lock. -/
def editCore (w : World) (session_id target : String) (L : LockSt) :
    CmdResult :=
  let tpath := w.abspath target
  let chkRes := _check_lock session_id tpath L
  if truthy chkRes then
    ⟨.ok resourceBusyMsg, L, [.chk tpath chkRes]⟩
  else
    let acq := _acquire_lock session_id tpath w.now L
    if acq.1 = false then
      ⟨.ok resourceBusyMsg, acq.2, [.chk tpath chkRes, .acq tpath false]⟩
    else
      match (if w.pathExists target then w.readForEdit target else .ok "") with
      | .error m =>
          ⟨.ok ("Error: " ++ m), _release_lock session_id tpath acq.2,
            [.chk tpath chkRes, .acq tpath true, .rel tpath]⟩
      | .ok _content =>
          match collectEditLines w.editInput with
          | none =>
              ⟨.ok "Error: EOF when reading a line",
                _release_lock session_id tpath acq.2,
                [.chk tpath chkRes, .acq tpath true, .rel tpath]⟩
          | some _lines =>
              match w.writeFile target with
              | .ok _ =>
                  ⟨.ok ("File '" ++ target ++ "' saved"),
                    _release_lock session_id tpath acq.2,
                    [.chk tpath chkRes, .acq tpath true, .fsWrite target,
                      .rel tpath]⟩
              | .error m =>
                  ⟨.ok ("Error: " ++ m),
                    _release_lock session_id tpath acq.2,
                    [.chk tpath chkRes, .acq tpath true, .fsWrite target,
                      .rel tpath]⟩

/-- terminal.py lines 86-481: the body inside `run_command`'s top-level
`try`, branch by branch. -/
def runBody (cmd : String) (args : List String) (session_id : String)
    (w : World) (L : LockSt) : CmdResult :=
  if cmd = "pwd" then ⟨.ok w.getcwd, L, []⟩
  else if cmd = "ls" then
    match w.listdir (args.headD ".") with
    | .ok items => ⟨.ok (String.intercalate "\n" items), L, []⟩
    | .error m => ⟨.ok ("Error: " ++ m), L, []⟩
  else if cmd = "cd" then
    match args with
    | [] => ⟨.ok "Usage: cd <directory>", L, []⟩
    | d :: _ =>
      match w.chdir d with
      | .ok _ => ⟨.ok "", L, [.fsChdir d]⟩
      | .error m => ⟨.ok ("Error: " ++ m), L, [.fsChdir d]⟩
  else if cmd = "mkdir" then
    match args with
    | [] =>
      match w.dialogCreateFolder with
      | .ok r => ⟨.ok r.2.2, L, []⟩
      | .error e => ⟨.error e, L, []⟩
    | target :: _ => mkdirCore w session_id target L
  else if cmd = "touch" then
    match args with
    | [] =>
      match w.dialogCreateFile with
      | .ok r => ⟨.ok r.2.2, L, []⟩
      | .error e => ⟨.error e, L, []⟩
    | target :: _ => touchCore w session_id target L
  else if cmd = "rm" then
    match args with
    | [] => ⟨.ok "Error: missing file/folder", L, []⟩
    | target :: _ => rmCore w session_id target L
  else if cmd = "cp" then
    match args with
    | source :: dest :: _ => cpCore w session_id source dest L
    | _ =>
      match w.dialogSelectCopySource with
      | .error e => ⟨.error e, L, []⟩
      | .ok (succ, source, message) =>
        if succ = false then ⟨.ok message, L, []⟩
        else
          match w.dialogSelectDest source "copy" with
          | .error e => ⟨.error e, L, []⟩
          | .ok (succ2, dest, message2) =>
            if succ2 = false then ⟨.ok message2, L, []⟩
            else cpCore w session_id source dest L
  else if cmd = "mv" then
    match args with
    | source :: dest :: _ => mvCore w session_id source dest L
    | _ =>
      match w.dialogSelectMoveSource with
      | .error e => ⟨.error e, L, []⟩
      | .ok (succ, source, message) =>
        if succ = false then ⟨.ok message, L, []⟩
        else
          match w.dialogSelectDest source "move" with
          | .error e => ⟨.error e, L, []⟩
          | .ok (succ2, dest, message2) =>
            if succ2 = false then ⟨.ok message2, L, []⟩
            else mvCore w session_id source dest L
  else if cmd = "cat" then
    match args with
    | [] => ⟨.ok "Usage: cat <file>", L, []⟩
    | target :: _ =>
      if w.pathExists target = false then
        ⟨.ok ("Error: " ++ target ++ " does not exist"), L, []⟩
      else if w.isfile target = false then
        ⟨.ok ("Error: " ++ target ++ " is not a file"), L, []⟩
      else
        match w.readUtf8 target with
        | .ok content => ⟨.ok content, L, []⟩
        | .error (.unicode _) =>
          match w.readLatin1 target with
          | .ok content => ⟨.ok content, L, []⟩
          | .error m => ⟨.ok ("Error reading file: " ++ m), L, []⟩
        | .error (.other m) => ⟨.ok ("Error: " ++ m), L, []⟩
  else if cmd = "edit" then
    match args with
    | [] => ⟨.ok "Usage: edit <file>", L, []⟩
    | target :: _ => editCore w session_id target L
  else if cmd = "cpu" then
    ⟨.ok ("CPU Usage: " ++ w.cpuPercentStr ++ "%"), L, []⟩
  else if cmd = "mem" then
    ⟨.ok ("Memory Usage: " ++ w.memPercentStr ++ "% ("
      ++ natStrD (w.memUsedB / (1024 * 1024)) ++ " MB / "
      ++ natStrD (w.memTotalB / (1024 * 1024)) ++ " MB)"), L, []⟩
  else if cmd = "ps" then
    match w.psEntries.filterMap (fun e =>
        e.map fun r => padNum r.1 6 ++ " " ++ padStrRight r.2.1 20 ++ " " ++ r.2.2) with
    | [] => ⟨.ok "No processes found", L, []⟩
    | processes =>
      ⟨.ok (padStrRight "PID" 6 ++ " " ++ padStrRight "Name" 20 ++ " User"
        ++ "\n" ++ String.intercalate "\n" processes), L, []⟩
  else if cmd = "find" then
    match args with
    | search_path :: pattern :: _ =>
      if w.pathExists search_path = false then
        ⟨.ok ("Error: " ++ search_path ++ " does not exist"), L, []⟩
      else
        match w.walk search_path with
        | .error m => ⟨.ok ("Error: " ++ m), L, []⟩
        | .ok triples =>
          match triples.flatMap (fun t =>
              ((t.2.2.filter fun f => Classifier.strContains f pattern).map
                fun f => w.pathJoin t.1 f)
              ++ ((t.2.1.filter fun d => Classifier.strContains d pattern).map
                fun d => w.pathJoin t.1 d)) with
          | [] =>
            ⟨.ok ("No files or directories matching '" ++ pattern ++ "' found"),
              L, []⟩
          | results => ⟨.ok (String.intercalate "\n" results), L, []⟩
    | _ => ⟨.ok "Usage: find <path> <name_pattern>", L, []⟩
  else if cmd = "grep" then
    match args with
    | pattern :: file_path :: _ =>
      if w.pathExists file_path = false then
        ⟨.ok ("Error: " ++ file_path ++ " does not exist"), L, []⟩
      else if w.isfile file_path = false then
        ⟨.ok ("Error: " ++ file_path ++ " is not a file"), L, []⟩
      else
        match w.readLines file_path with
        | .error m => ⟨.ok ("Error: " ++ m), L, []⟩
        | .ok fileLines =>
          match (fileLines.enum.filter fun p =>
              Classifier.strContains p.2 pattern).map
              (fun p => file_path ++ ":" ++ natStrD (p.1 + 1) ++ ": "
                ++ Classifier.pyStrip p.2) with
          | [] =>
            ⟨.ok ("Pattern '" ++ pattern ++ "' not found in " ++ file_path),
              L, []⟩
          | found => ⟨.ok (String.intercalate "\n" found), L, []⟩
    | _ => ⟨.ok "Usage: grep <pattern> <file>", L, []⟩
  else if cmd = "clear" then ⟨.ok "", L, []⟩
  else if cmd = "echo" then ⟨.ok (String.intercalate " " args), L, []⟩
  else if cmd = "date" then ⟨.ok w.dateStr, L, []⟩
  else if cmd = "whoami" then ⟨.ok w.username, L, []⟩
  else if cmd = "uname" then
    ⟨.ok (w.platformSystem ++ " " ++ w.platformRelease ++ " "
      ++ w.platformMachine), L, []⟩
  else if cmd = "df" then
    match w.diskUsage with
    | .error m => ⟨.ok ("Error: " ++ m), L, []⟩
    | .ok (total, used, free, percentStr) =>
      ⟨.ok ("Filesystem      Size  Used  Avail  Use%\n/dev/disk        "
        ++ padNum (total / (1024 * 1024 * 1024)) 3 ++ "G  "
        ++ padNum (used / (1024 * 1024 * 1024)) 3 ++ "G  "
        ++ padNum (free / (1024 * 1024 * 1024)) 3 ++ "G  "
        ++ percentStr ++ "%"), L, []⟩
  else
    match w.subprocessRun cmd args with
    | .completed rc stdout stderr =>
        if rc = 0 then ⟨.ok (Classifier.pyStrip stdout), L, []⟩
        else ⟨.ok ("Error: " ++ Classifier.pyStrip stderr), L, []⟩
    | .timeout => ⟨.ok "Error: Command timed out", L, []⟩
    | .notFound => ⟨.ok "Command not found", L, []⟩
    | .failed m => ⟨.ok ("Error: " ++ m), L, []⟩

/-- terminal.py lines 74-484, `run_command`: the body under the
top-level `try`, whose `except Exception` renders any escaped fault as
`"Error: ..."` text. -/
def run_command (cmd : String) (args : List String) (session_id : String)
    (w : World) (L : LockSt) : String × LockSt × List Ev :=
  match runBody cmd args session_id w L with
  | ⟨.ok s, L', tr⟩ => (s, L', tr)
  | ⟨.error e, L', tr⟩ => ("Error: " ++ e.msg, L', tr)

/-- `p` is locked by a session other than `sid` and the lock is unexpired
at `now`. -/
def heldByOtherUnexpired (sid p : String) (now : Rat) (T : LockSt) : Prop :=
  ∃ info, T p = some info ∧ info.session_id ≠ sid ∧ now - info.timestamp ≤ 300

/-- The trace performed no copy and no move. -/
def noCopyMove (tr : List Ev) : Prop :=
  ∀ a b, Ev.fsCopy a b ∉ tr ∧ Ev.fsMove a b ∉ tr

/-- Every successfully acquired lock in the trace is also released in
it: the call leaves no lock that it acquired. -/
def acqRelBalanced (tr : List Ev) : Prop :=
  ∀ p, Ev.acq p true ∈ tr → Ev.rel p ∈ tr

/-- The locking discipline claimed for `cp`/`mv` with explicit arguments:
(1) if either path is held by a different unexpired session, or any lock
acquisition failed, the call returns a busy message and performs no copy
or move; (2) if the destination acquisition failed after the source lock
was acquired, the source lock is released before returning; (3) every
lock the call acquired is released before returning (covering the
success and filesystem-error paths, which release both). -/
def lockProtocolOK (w : World) (sid src dest : String) (L : LockSt)
    (r : CmdResult) : Prop :=
  ((heldByOtherUnexpired sid (w.abspath src) w.now L ∨
    heldByOtherUnexpired sid (w.abspath dest) w.now L ∨
    (∃ p, Ev.acq p false ∈ r.trace)) →
      (r.result = .ok srcBusyMsg ∨ r.result = .ok destBusyMsg) ∧
      noCopyMove r.trace) ∧
  ((Ev.acq (w.abspath src) true ∈ r.trace ∧
    Ev.acq (w.abspath dest) false ∈ r.trace) →
      Ev.rel (w.abspath src) ∈ r.trace) ∧
  acqRelBalanced r.trace

/-- Lock table for the C3 counterexample: the destination's absolute
path is held by another session, unexpired at time 100. -/
def c3Locks : LockSt := fun q =>
  if q = "/abs/d" then some ⟨"s2", 0⟩ else none

/-- World for the C3 counterexample: the source `nosrc` does not exist. -/
def c3World : World :=
  { now := 100
    getcwd := "/"
    abspath := fun p => "/abs/" ++ p
    pathExists := fun _ => false
    isdir := fun _ => false
    isfile := fun _ => false
    listdir := fun _ => .ok []
    chdir := fun _ => .ok ()
    makedirs := fun _ => .ok ()
    touchFile := fun _ => .ok ()
    rmtree := fun _ => .ok ()
    removeFile := fun _ => .ok ()
    copytree := fun _ _ => .ok ()
    copy2 := fun _ _ => .ok ()
    moveFs := fun _ _ => .ok ()
    readUtf8 := fun _ => .ok ""
    readLatin1 := fun _ => .ok ""
    readForEdit := fun _ => .ok ""
    editInput := []
    writeFile := fun _ => .ok ()
    cpuPercentStr := "0.0"
    memPercentStr := "0.0"
    memUsedB := 0
    memTotalB := 0
    psEntries := []
    walk := fun _ => .ok []
    pathJoin := fun a b => a ++ "/" ++ b
    readLines := fun _ => .ok []
    dateStr := ""
    username := ""
    platformSystem := ""
    platformRelease := ""
    platformMachine := ""
    diskUsage := .ok (0, 0, 0, "0.0")
    subprocessRun := fun _ _ => .notFound
    dialogCreateFolder := .ok (false, "", "")
    dialogCreateFile := .ok (false, "", "")
    dialogSelectCopySource := .ok (false, "", "")
    dialogSelectMoveSource := .ok (false, "", "")
    dialogSelectDest := fun _ _ => .ok (false, "", "") }

/-- World for the C3 witness: source and destination exist, destination
abspath locked by another session. -/
def c3WitWorld : World :=
  { c3World with pathExists := fun _ => true }

end Terminal

/-! ## Theorems -/

namespace Terminal

/-- C1 counterexample: at time 400, `_acquire_lock "s1" "p"` on `c1Table`
returns `false`, but — contrary to the claim that the failing call still
leaves the table purged — the persisted table is *not* the purged table:
the expired `"q"` entry survives because the failure path returns before
`_save_locks`. -/
theorem acquire_failure_not_purged_counterexample :
    (_acquire_lock "s1" "p" 400 c1Table).1 = false ∧
    (_acquire_lock "s1" "p" 400 c1Table).2 ≠ purgeLocks 400 c1Table := by
  have hp : purgeLocks 400 c1Table "p" = some ⟨"s2", 399⟩ := by
    simp [purgeLocks, c1Table]; norm_num
  have hq : purgeLocks 400 c1Table "q" = none := by
    simp [purgeLocks, c1Table]; norm_num
  have hfst : (_acquire_lock "s1" "p" 400 c1Table) = (false, c1Table) := by
    unfold _acquire_lock
    rw [hp]
    dsimp only
    rw [if_pos (by decide : ("s2" : String) ≠ "s1")]
  constructor
  · rw [hfst]
  · rw [hfst]
    intro h
    have h2 := congrFun h "q"
    rw [hq] at h2
    simp only [c1Table] at h2
    simp at h2

/-- C1 (amended): `_acquire_lock s p t` returns `false` iff the purged
table holds `p` for a session other than `s`; on failure the persisted
table is left **entirely unchanged** (the purge is computed in memory but
never saved); on success the persisted table is the purged table with
`p ↦ (s, t)`. -/
theorem acquire_spec (s p : String) (t : Rat) (L : LockSt) :
    ((_acquire_lock s p t L).1 = false ↔ heldByOther s p (purgeLocks t L)) ∧
    ((_acquire_lock s p t L).1 = false → (_acquire_lock s p t L).2 = L) ∧
    ((_acquire_lock s p t L).1 = true →
      (_acquire_lock s p t L).2 = lockInsert p ⟨s, t⟩ (purgeLocks t L)) := by
  unfold _acquire_lock heldByOther
  cases h : purgeLocks t L p with
  | none =>
      dsimp only
      refine ⟨⟨fun hf => by simp at hf, fun ⟨i, hi, _⟩ => by cases hi⟩,
        fun hf => by simp at hf, fun _ => rfl⟩
  | some info =>
    dsimp only
    by_cases hs : info.session_id = s
    · rw [if_neg (not_not_intro hs)]
      refine ⟨⟨fun hf => by simp at hf, fun ⟨i, hi, hine⟩ => ?_⟩,
        fun hf => by simp at hf, fun _ => rfl⟩
      cases hi
      exact absurd hs hine
    · rw [if_pos hs]
      exact ⟨⟨fun _ => ⟨info, rfl, hs⟩, fun _ => rfl⟩, fun _ => rfl,
        fun hc => by simp at hc⟩

/-- C2 counterexample: the lock on `"p"` was acquired at time 0 and never
released; at time 301 (≥ 0 + 301) `_check_lock` called by the different
session `"b"` still returns the holder `"a"` rather than no holder,
because `_check_lock` never consults timestamps. -/
theorem check_reports_expired_counterexample :
    (301 : Rat) ≥ 0 + 301 ∧ _check_lock "b" "p" c2Table = some "a" := by
  constructor
  · norm_num
  · simp [_check_lock, c2Table]

/-- C2 (amended): for a lock on `p` acquired by `s` at time `t` and never
released, at any time `t' ≥ t + 301` an `_acquire_lock` by a different
session `s2` succeeds (the expired entry is purged during acquisition),
but `_check_lock` by `s2` still reports the holder `s`, since `check`
ignores timestamps — expiry is enforced only at acquisition. -/
theorem expiry_enforced_only_by_acquire (s s2 p : String) (t t' : Rat)
    (L : LockSt) (hheld : L p = some ⟨s, t⟩) (hne : s2 ≠ s)
    (ht : t' ≥ t + 301) :
    (_acquire_lock s2 p t' L).1 = true ∧ _check_lock s2 p L = some s := by
  have hpur : purgeLocks t' L p = none := by
    unfold purgeLocks
    rw [hheld]
    have : t' - t > 300 := by linarith
    simp [this]
  constructor
  · unfold _acquire_lock
    rw [hpur]
  · unfold _check_lock
    rw [hheld]
    dsimp only
    rw [if_pos (show s ≠ s2 from fun hss => hne hss.symm)]

/-- C2 witness: the amended statement instantiated on `c2Table` with
holder `"a"` (t = 0), caller `"b"`, at time 301. -/
theorem expiry_enforced_only_by_acquire_witness :
    (_acquire_lock "b" "p" 301 c2Table).1 = true ∧
    _check_lock "b" "p" c2Table = some "a" :=
  expiry_enforced_only_by_acquire "a" "b" "p" 0 301 c2Table
    (by simp [c2Table]) (by decide) (by norm_num)

/-- C4: `_release_lock s p` removes the entry for `p` exactly when `p` is
currently held by `s`; when `p` is unheld or held by a different session
it changes nothing (and, being a total function, never errors);
consequently after the holder releases, `_check_lock` by any session
reports no holder for `p`. -/
theorem release_spec (s p : String) (L : LockSt) :
    ((∃ info, L p = some info ∧ info.session_id = s) →
        _release_lock s p L = lockErase p L) ∧
    ((∀ info, L p = some info → info.session_id ≠ s) →
        _release_lock s p L = L) ∧
    (∀ info, L p = some info → info.session_id = s →
        ∀ s2, _check_lock s2 p (_release_lock s p L) = none) := by
  refine ⟨?_, ?_, ?_⟩
  · rintro ⟨i, hi, hsi⟩
    unfold _release_lock
    rw [hi]
    dsimp only
    rw [if_pos hsi]
  · intro hno
    unfold _release_lock
    cases h : L p with
    | none => rfl
    | some info =>
        dsimp only
        rw [if_neg (hno info h)]
  · intro i hi hsi s2
    have hrel : _release_lock s p L = lockErase p L := by
      unfold _release_lock
      rw [hi]
      dsimp only
      rw [if_pos hsi]
    rw [hrel]
    unfold _check_lock lockErase
    simp

end Terminal

namespace History

/-- After `add_command st sid c`, the stored history for `sid` ends in `c`. -/
theorem getLast?_add_command (st : HistSt) (sid c : String) :
    (add_command st sid c sid).getLast? = some c := by
  unfold add_command load_session_history save_session_history
  by_cases h : st sid = [] ∨ (st sid).getLast? ≠ some c
  · rw [if_pos h]
    simp [List.getLast?_concat]
  · rw [if_neg h]
    push_neg at h
    simp [h.2]

/-- C5: appending a command equal to the last stored entry leaves the
history store unchanged (in particular the length is unchanged and the
consecutive duplicate is stored only once); appending a command that
differs from the last entry appends it at the end; hence appending the
same command twice consecutively stores it once, and appending two
distinct commands in sequence yields the two entries in order. -/
theorem add_command_spec (st : HistSt) (sid c d : String) :
    ((st sid).getLast? = some c → add_command st sid c = st) ∧
    ((st sid).getLast? ≠ some c →
        add_command st sid c sid = st sid ++ [c]) ∧
    (add_command (add_command st sid c) sid c = add_command st sid c) ∧
    (c ≠ d → add_command (add_command st sid c) sid d sid
        = add_command st sid c sid ++ [d]) ∧
    (st sid = [] → add_command st sid c sid = [c] ∧
        (c ≠ d → add_command (add_command st sid c) sid d sid = [c, d])) := by
  have hdup : ∀ (st' : HistSt), (st' sid).getLast? = some c →
      add_command st' sid c = st' := by
    intro st' hlast
    have hne : st' sid ≠ [] := by
      intro hnil
      rw [hnil] at hlast
      simp at hlast
    unfold add_command load_session_history save_session_history
    rw [if_neg (by push_neg; exact ⟨hne, by rw [hlast]⟩)]
    funext q
    by_cases hq : q = sid <;> simp [hq]
  have happ : ∀ (st' : HistSt) (e : String), (st' sid).getLast? ≠ some e →
      add_command st' sid e sid = st' sid ++ [e] := by
    intro st' e hlast
    unfold add_command load_session_history save_session_history
    rw [if_pos (Or.inr hlast)]
    simp
  refine ⟨hdup st, happ st c, ?_, ?_, ?_⟩
  · exact hdup (add_command st sid c) (getLast?_add_command st sid c)
  · intro hcd
    refine happ (add_command st sid c) d ?_
    rw [getLast?_add_command st sid c]
    simp
    exact hcd
  · intro hnil
    have h1 : add_command st sid c sid = [c] := by
      rw [happ st c (by rw [hnil]; simp), hnil]
      rfl
    refine ⟨h1, fun hcd => ?_⟩
    rw [happ (add_command st sid c) d
      (by rw [getLast?_add_command st sid c]; simp; exact hcd), h1]
    rfl

end History

namespace Classifier

/-- C6: the classifier labels the concrete inputs as claimed: `"ls"` is a
direct command, `"create folder test"` is a simple folder creation whose
fast path extracts the name `test`, `"what is my cpu usage?"` is a system
query, `"hello"` is chat, and the empty string is typed empty. -/
theorem classify_examples :
    process_input_kind "ls" = "direct_command" ∧
    process_input_kind "create folder test" = "simple_folder_creation" ∧
    extract_folder_name "create folder test" = some "test" ∧
    process_input_kind "what is my cpu usage?" = "system_query" ∧
    process_input_kind "hello" = "chat" ∧
    process_input_kind "" = "empty" := by
  refine ⟨?_, ?_, ?_, ?_, ?_, ?_⟩ <;> decide

end Classifier

namespace SessionManager

theorem digitChar_toNat {d : Nat} (h : d < 10) : (digitChar d).toNat = 48 + d := by
  interval_cases d <;> decide

theorem digitChar_ne_underscore {d : Nat} (h : d < 10) : digitChar d ≠ '_' := by
  interval_cases d <;> decide

theorem decodeDec_aux (fuel n : Nat) (h : n < fuel) :
    decodeDec (natDecimalAux fuel n) = n := by
  induction fuel generalizing n with
  | zero => omega
  | succ fuel ih =>
    rw [natDecimalAux]
    by_cases h10 : n < 10
    · rw [if_pos h10]
      unfold decodeDec
      simp [List.foldl, digitChar_toNat h10]
    · rw [if_neg h10]
      unfold decodeDec
      rw [List.foldl_append]
      have hdiv : n / 10 < fuel := by
        have : n / 10 < n := Nat.div_lt_self (by omega) (by norm_num)
        omega
      have ihh := ih (n / 10) hdiv
      unfold decodeDec at ihh
      rw [ihh]
      simp [List.foldl, digitChar_toNat (Nat.mod_lt n (by norm_num))]
      omega

theorem decodeDec_natDecimal (n : Nat) : decodeDec (natDecimal n) = n :=
  decodeDec_aux (n + 1) n (by omega)

theorem natDecimal_inj {m n : Nat} (h : natDecimal m = natDecimal n) : m = n := by
  have := decodeDec_natDecimal m
  rw [h, decodeDec_natDecimal n] at this
  omega

theorem natDecimalAux_no_underscore (fuel n : Nat) :
    ∀ c ∈ natDecimalAux fuel n, c ≠ '_' := by
  induction fuel generalizing n with
  | zero => intro c hc; simp [natDecimalAux] at hc
  | succ fuel ih =>
    intro c hc
    rw [natDecimalAux] at hc
    by_cases h10 : n < 10
    · rw [if_pos h10] at hc
      simp at hc
      subst hc
      exact digitChar_ne_underscore h10
    · rw [if_neg h10] at hc
      rcases List.mem_append.mp hc with h1 | h2
      · exact ih (n / 10) c h1
      · simp at h2
        subst h2
        exact digitChar_ne_underscore (Nat.mod_lt n (by norm_num))

theorem natDecimal_no_underscore (n : Nat) : ∀ c ∈ natDecimal n, c ≠ '_' :=
  natDecimalAux_no_underscore (n + 1) n

/-- Splitting at the first `'_'`: underscore-free prefixes followed by an
underscore determine each other. -/
theorem underscore_split {d1 d2 t1 t2 : List Char}
    (h1 : ∀ c ∈ d1, c ≠ '_') (h2 : ∀ c ∈ d2, c ≠ '_')
    (heq : d1 ++ '_' :: t1 = d2 ++ '_' :: t2) : d1 = d2 := by
  induction d1 generalizing d2 with
  | nil =>
    cases d2 with
    | nil => rfl
    | cons b bs =>
      injection heq with hb _
      exact absurd hb.symm (h2 b (List.mem_cons_self b bs))
  | cons a as ih =>
    cases d2 with
    | nil =>
      injection heq with ha _
      exact absurd ha (h1 a (List.mem_cons_self a as))
    | cons b bs =>
      injection heq with hab hrest
      subst hab
      rw [ih (fun c hc => h1 c (List.mem_cons_of_mem a hc))
        (fun c hc => h2 c (List.mem_cons_of_mem a hc)) hrest]

/-- Auto-generated session ids for distinct process ids are distinct. -/
theorem mkAutoSessionId_pid_inj {p q t u : Nat}
    (h : mkAutoSessionId p t = mkAutoSessionId q u) : p = q := by
  unfold mkAutoSessionId at h
  injection h with hdata
  have hmid := List.append_cancel_left hdata
  exact natDecimal_inj
    (underscore_split (natDecimal_no_underscore p) (natDecimal_no_underscore q) hmid)

/-- C7: switching to an unknown session id returns `false` and changes
nothing at all — pointer, metadata and working directory included — and
switching to a known id (under the documented data-model invariant that
stored sessions have metadata) returns `true`, bumps that session's
last-accessed time and records the id as current. -/
theorem switch_session_spec (sid : String) (now : Rat)
    (dirExists : String → Bool) (chdirOk : Bool) (st : SMState)
    (hinv : sid ∈ st.sessions → (st.info sid).isSome = true) :
    (sid ∉ st.sessions →
        switch_session sid now dirExists chdirOk st = (false, st)) ∧
    (sid ∈ st.sessions →
        (switch_session sid now dirExists chdirOk st).1 = true ∧
        (switch_session sid now dirExists chdirOk st).2.current = sid ∧
        ∃ i, st.info sid = some i ∧
          (switch_session sid now dirExists chdirOk st).2.info sid
            = some { i with last_accessed := now }) := by
  by_cases hmem : sid ∈ st.sessions
  · refine ⟨fun hmem' => absurd hmem hmem', fun _ => ?_⟩
    obtain ⟨i, hi⟩ := Option.isSome_iff_exists.mp (hinv hmem)
    unfold switch_session
    rw [if_pos hmem, hi]
    dsimp only
    refine ⟨rfl, ?_, i, rfl, ?_⟩ <;>
      cases hok : dirExists ({ i with last_accessed := now }).working_directory
          && chdirOk <;>
        simp [hok]
  · refine ⟨fun _ => ?_, fun hmem' => absurd hmem' hmem⟩
    unfold switch_session
    rw [if_neg hmem]

/-- C7 witness: the statement instantiated on `c7State` at the known id
`"session_1"`. -/
theorem switch_session_spec_witness :
    ("session_1" ∉ c7State.sessions →
        switch_session "session_1" 5 (fun _ => true) true c7State
          = (false, c7State)) ∧
    ("session_1" ∈ c7State.sessions →
        (switch_session "session_1" 5 (fun _ => true) true c7State).1 = true ∧
        (switch_session "session_1" 5 (fun _ => true) true c7State).2.current
          = "session_1" ∧
        ∃ i, c7State.info "session_1" = some i ∧
          (switch_session "session_1" 5 (fun _ => true) true c7State).2.info
              "session_1"
            = some { i with last_accessed := 5 }) :=
  switch_session_spec "session_1" 5 (fun _ => true) true c7State
    (fun _ => by simp [c7State])

/-- C8 counterexample: with stored sessions `["session_2"]`,
`create_new_session` allocates `session_{1+1} = "session_2"` — an id that
already exists — and resets that session's history from `["ls"]` to
`[]`, contradicting the claimed global uniqueness and non-overwriting. -/
theorem create_new_session_collision_counterexample :
    (create_new_session 0 c8State).1 = "session_2" ∧
    "session_2" ∈ c8State.sessions ∧
    c8State.histories "session_2" = ["ls"] ∧
    (create_new_session 0 c8State).2.histories "session_2" = [] := by
  refine ⟨by decide, by decide, by decide, by decide⟩

/-- C8 (amended): `create_new_session` allocates `session_{count+1}` and
initializes an empty history for it; *provided* that id is not already
among the stored sessions (as is the case when the stored ids are exactly
`session_1 … session_count`), it is distinct from every existing session
id and no existing session's history is reset or overwritten. -/
theorem create_new_session_spec (now : Rat) (st : SMState)
    (hfresh : mkSeqSessionId (st.sessions.length + 1) ∉ st.sessions) :
    (create_new_session now st).1 = mkSeqSessionId (st.sessions.length + 1) ∧
    (create_new_session now st).1 ∉ st.sessions ∧
    (create_new_session now st).2.histories (create_new_session now st).1
      = [] ∧
    (∀ other ∈ st.sessions, other ≠ (create_new_session now st).1 ∧
        (create_new_session now st).2.histories other = st.histories other) ∧
    (create_new_session now st).2.current = (create_new_session now st).1 := by
  refine ⟨rfl, hfresh, by simp [create_new_session], ?_, rfl⟩
  intro other hother
  have hne : other ≠ mkSeqSessionId (st.sessions.length + 1) := by
    intro heq
    exact hfresh (heq ▸ hother)
  exact ⟨hne, by simp [create_new_session, hne]⟩

/-- C8 witness: the amended statement instantiated on `c8FreshState`. -/
theorem create_new_session_spec_witness :
    (create_new_session 0 c8FreshState).1
      = mkSeqSessionId (c8FreshState.sessions.length + 1) ∧
    (create_new_session 0 c8FreshState).1 ∉ c8FreshState.sessions ∧
    (create_new_session 0 c8FreshState).2.histories
        (create_new_session 0 c8FreshState).1 = [] ∧
    (∀ other ∈ c8FreshState.sessions,
        other ≠ (create_new_session 0 c8FreshState).1 ∧
        (create_new_session 0 c8FreshState).2.histories other
          = c8FreshState.histories other) ∧
    (create_new_session 0 c8FreshState).2.current
      = (create_new_session 0 c8FreshState).1 :=
  create_new_session_spec 0 c8FreshState (by decide)

/-- `get_current_session` preserves the binding-shape invariant. -/
theorem get_current_preserves_WF (pid ts : Nat) (now : Rat) (st : SMState)
    (hwf : WFBindings st) :
    WFBindings (get_current_session pid ts now st).2 := by
  unfold get_current_session
  cases hb : st.bindings pid with
  | some sid => exact hwf
  | none =>
    unfold _create_unique_session_for_process
    intro p s hps
    dsimp only at hps
    by_cases hp : p = pid
    · subst hp
      rw [if_pos rfl] at hps
      exact ⟨ts, (Option.some.inj hps).symm⟩
    · rw [if_neg hp] at hps
      exact hwf p s hps

/-- `get_current_session` on a recorded binding returns it, untouched. -/
theorem get_current_hit (pid ts : Nat) (now : Rat) (st : SMState) (s : String)
    (h : st.bindings pid = some s) :
    get_current_session pid ts now st = (s, st) := by
  unfold get_current_session
  rw [h]

/-- `get_current_session` with no recorded binding creates one. -/
theorem get_current_miss (pid ts : Nat) (now : Rat) (st : SMState)
    (h : st.bindings pid = none) :
    get_current_session pid ts now st
      = _create_unique_session_for_process pid ts now st := by
  unfold get_current_session
  rw [h]

/-- C9: `get_current_session` is idempotent per process — a second call
with the same process id returns the same session id — and injective
across processes: under the invariant that every persisted binding was
produced by the code (shape `session_{pid}_{timestamp}`), a call from a
distinct process id returns a distinct session id. -/
theorem get_current_session_spec (p1 p2 t1 t2 t3 : Nat) (n1 n2 n3 : Rat)
    (st : SMState) (hwf : WFBindings st) (hne : p1 ≠ p2) :
    (get_current_session p1 t2 n2 (get_current_session p1 t1 n1 st).2).1
      = (get_current_session p1 t1 n1 st).1 ∧
    (get_current_session p2 t3 n3 (get_current_session p1 t1 n1 st).2).1
      ≠ (get_current_session p1 t1 n1 st).1 := by
  have hwf1 := get_current_preserves_WF p1 t1 n1 st hwf
  have hshape1 : ∃ u, (get_current_session p1 t1 n1 st).1 = mkAutoSessionId p1 u ∧
      (get_current_session p1 t1 n1 st).2.bindings p1
        = some (get_current_session p1 t1 n1 st).1 := by
    cases hb : st.bindings p1 with
    | some sid =>
      obtain ⟨u, hu⟩ := hwf p1 sid hb
      rw [get_current_hit p1 t1 n1 st sid hb]
      exact ⟨u, hu, hb⟩
    | none =>
      rw [get_current_miss p1 t1 n1 st hb]
      refine ⟨t1, rfl, ?_⟩
      unfold _create_unique_session_for_process
      simp
  obtain ⟨u, hu, hbind⟩ := hshape1
  constructor
  · rw [get_current_hit p1 t2 n2 _ _ hbind]
  · cases hb2 : (get_current_session p1 t1 n1 st).2.bindings p2 with
    | some sid2 =>
      obtain ⟨v, hv⟩ := hwf1 p2 sid2 hb2
      rw [get_current_hit p2 t3 n3 _ _ hb2, hv, hu]
      intro hcon
      exact hne (mkAutoSessionId_pid_inj hcon).symm
    | none =>
      rw [get_current_miss p2 t3 n3 _ hb2]
      show (_create_unique_session_for_process p2 t3 n3 _).1 ≠ _
      unfold _create_unique_session_for_process
      dsimp only
      rw [hu]
      intro hcon
      exact hne (mkAutoSessionId_pid_inj hcon).symm

/-- C9 witness: the statement instantiated on `c9State` for processes 1
and 2. -/
theorem get_current_session_spec_witness :
    (get_current_session 1 20 20 (get_current_session 1 10 10 c9State).2).1
      = (get_current_session 1 10 10 c9State).1 ∧
    (get_current_session 2 30 30 (get_current_session 1 10 10 c9State).2).1
      ≠ (get_current_session 1 10 10 c9State).1 :=
  get_current_session_spec 1 2 10 20 30 10 20 30 c9State
    (fun p s h => by simp [c9State] at h) (by decide)

end SessionManager

namespace Terminal

/-- All interactive dialog collaborators respond without raising. -/
def dialogsOk (w : World) : Prop :=
  (∃ r, w.dialogCreateFolder = .ok r) ∧ (∃ r, w.dialogCreateFile = .ok r) ∧
  (∃ r, w.dialogSelectCopySource = .ok r) ∧
  (∃ r, w.dialogSelectMoveSource = .ok r) ∧
  (∀ s o, ∃ r, w.dialogSelectDest s o = .ok r)

/-- The lock-guarded single-target branches never raise. -/
theorem mkdirCore_ok (w : World) (sid t : String) (L : LockSt) :
    ∃ s, (mkdirCore w sid t L).result = .ok s := by
  unfold mkdirCore
  dsimp only
  split_ifs <;> try exact ⟨_, rfl⟩
  cases hm : w.makedirs t <;> exact ⟨_, rfl⟩

theorem touchCore_ok (w : World) (sid t : String) (L : LockSt) :
    ∃ s, (touchCore w sid t L).result = .ok s := by
  unfold touchCore
  dsimp only
  split_ifs <;> try exact ⟨_, rfl⟩
  cases hm : w.touchFile t <;> exact ⟨_, rfl⟩

theorem rmCore_ok (w : World) (sid t : String) (L : LockSt) :
    ∃ s, (rmCore w sid t L).result = .ok s := by
  unfold rmCore
  dsimp only
  split_ifs <;> (repeat' split) <;> exact ⟨_, rfl⟩

theorem cpCore_ok (w : World) (sid a b : String) (L : LockSt) :
    ∃ s, (cpCore w sid a b L).result = .ok s := by
  unfold cpCore
  dsimp only
  split_ifs <;> exact ⟨_, rfl⟩

theorem mvCore_ok (w : World) (sid a b : String) (L : LockSt) :
    ∃ s, (mvCore w sid a b L).result = .ok s := by
  unfold mvCore
  dsimp only
  split_ifs <;> exact ⟨_, rfl⟩

theorem editCore_ok (w : World) (sid t : String) (L : LockSt) :
    ∃ s, (editCore w sid t L).result = .ok s := by
  unfold editCore
  dsimp only
  by_cases h1 : truthy (_check_lock sid (w.abspath t) L) = true
  · rw [if_pos h1]
    exact ⟨_, rfl⟩
  · rw [if_neg h1]
    by_cases h2 : (_acquire_lock sid (w.abspath t) w.now L).1 = false
    · rw [if_pos h2]
      exact ⟨_, rfl⟩
    · rw [if_neg h2]
      repeat' split
      all_goals exact ⟨_, rfl⟩

set_option maxHeartbeats 4000000

/-- When the dialog collaborators respond, no branch of the body raises:
every other fallible primitive is guarded by a branch-level handler. -/
theorem runBody_ok_of_dialogsOk (cmd : String) (args : List String)
    (session_id : String) (w : World) (L : LockSt) (h : dialogsOk w) :
    ∃ s, (runBody cmd args session_id w L).result = .ok s := by
  obtain ⟨⟨r1, h1⟩, ⟨r2, h2⟩, ⟨r3, h3⟩, ⟨r4, h4⟩, h5⟩ := h
  unfold runBody
  by_cases c0 : cmd = "pwd"
  · rw [if_pos c0]
    exact ⟨_, rfl⟩
  · rw [if_neg c0]
    by_cases c1 : cmd = "ls"
    · rw [if_pos c1]
      repeat' split
      all_goals exact ⟨_, rfl⟩
    · rw [if_neg c1]
      by_cases c2 : cmd = "cd"
      · rw [if_pos c2]
        repeat' split
        all_goals exact ⟨_, rfl⟩
      · rw [if_neg c2]
        by_cases c3 : cmd = "mkdir"
        · rw [if_pos c3]
          split
          · rw [h1]
            exact ⟨_, rfl⟩
          · exact mkdirCore_ok w session_id _ L
        · rw [if_neg c3]
          by_cases c4 : cmd = "touch"
          · rw [if_pos c4]
            split
            · rw [h2]
              exact ⟨_, rfl⟩
            · exact touchCore_ok w session_id _ L
          · rw [if_neg c4]
            by_cases c5 : cmd = "rm"
            · rw [if_pos c5]
              split
              · exact ⟨_, rfl⟩
              · exact rmCore_ok w session_id _ L
            · rw [if_neg c5]
              by_cases c6 : cmd = "cp"
              · rw [if_pos c6]
                split
                · exact cpCore_ok w session_id _ _ L
                all_goals (
                  rw [h3]
                  rcases r3 with ⟨succ, source, message⟩
                  dsimp only
                  cases succ
                  · exact ⟨_, rfl⟩
                  · obtain ⟨rd, hd⟩ := h5 source "copy"
                    rw [hd]
                    rcases rd with ⟨succ2, dest, message2⟩
                    dsimp only
                    cases succ2
                    · exact ⟨_, rfl⟩
                    · exact cpCore_ok w session_id source dest L)
              · rw [if_neg c6]
                by_cases c7 : cmd = "mv"
                · rw [if_pos c7]
                  split
                  · exact mvCore_ok w session_id _ _ L
                  all_goals (
                    rw [h4]
                    rcases r4 with ⟨succ, source, message⟩
                    dsimp only
                    cases succ
                    · exact ⟨_, rfl⟩
                    · obtain ⟨rd, hd⟩ := h5 source "move"
                      rw [hd]
                      rcases rd with ⟨succ2, dest, message2⟩
                      dsimp only
                      cases succ2
                      · exact ⟨_, rfl⟩
                      · exact mvCore_ok w session_id source dest L)
                · rw [if_neg c7]
                  by_cases c8 : cmd = "cat"
                  · rw [if_pos c8]
                    repeat' split
                    all_goals exact ⟨_, rfl⟩
                  · rw [if_neg c8]
                    by_cases c9 : cmd = "edit"
                    · rw [if_pos c9]
                      split
                      · exact ⟨_, rfl⟩
                      · exact editCore_ok w session_id _ L
                    · rw [if_neg c9]
                      by_cases c10 : cmd = "cpu"
                      · rw [if_pos c10]
                        exact ⟨_, rfl⟩
                      · rw [if_neg c10]
                        by_cases c11 : cmd = "mem"
                        · rw [if_pos c11]
                          exact ⟨_, rfl⟩
                        · rw [if_neg c11]
                          by_cases c12 : cmd = "ps"
                          · rw [if_pos c12]
                            repeat' split
                            all_goals exact ⟨_, rfl⟩
                          · rw [if_neg c12]
                            by_cases c13 : cmd = "find"
                            · rw [if_pos c13]
                              repeat' split
                              all_goals exact ⟨_, rfl⟩
                            · rw [if_neg c13]
                              by_cases c14 : cmd = "grep"
                              · rw [if_pos c14]
                                repeat' split
                                all_goals exact ⟨_, rfl⟩
                              · rw [if_neg c14]
                                by_cases c15 : cmd = "clear"
                                · rw [if_pos c15]
                                  exact ⟨_, rfl⟩
                                · rw [if_neg c15]
                                  by_cases c16 : cmd = "echo"
                                  · rw [if_pos c16]
                                    exact ⟨_, rfl⟩
                                  · rw [if_neg c16]
                                    by_cases c17 : cmd = "date"
                                    · rw [if_pos c17]
                                      exact ⟨_, rfl⟩
                                    · rw [if_neg c17]
                                      by_cases c18 : cmd = "whoami"
                                      · rw [if_pos c18]
                                        exact ⟨_, rfl⟩
                                      · rw [if_neg c18]
                                        by_cases c19 : cmd = "uname"
                                        · rw [if_pos c19]
                                          exact ⟨_, rfl⟩
                                        · rw [if_neg c19]
                                          by_cases c20 : cmd = "df"
                                          · rw [if_pos c20]
                                            repeat' split
                                            all_goals exact ⟨_, rfl⟩
                                          · rw [if_neg c20]
                                            repeat' split
                                            all_goals exact ⟨_, rfl⟩
/-- C10: `run_command` is total at its public interface: for every
command name, argument list, session id, environment and lock table it
returns a plain string — the branch's output when the body completes,
and otherwise the top-level handler's `"Error: ..."` rendering of the
escaped exception; moreover, whenever the interactive dialog
collaborators respond (the only primitives no branch-level handler
guards), the body completes, so every fault of the dispatch branches and
of the host-shell fallback is already converted to an `"Error: ..."`
text result by the branch itself. -/
theorem run_command_total (cmd : String) (args : List String)
    (session_id : String) (w : World) (L : LockSt) :
    ((∃ s, (runBody cmd args session_id w L).result = .ok s ∧
        (run_command cmd args session_id w L).1 = s) ∨
     (∃ e, (runBody cmd args session_id w L).result = .error e ∧
        (run_command cmd args session_id w L).1 = "Error: " ++ e.msg)) ∧
    (dialogsOk w → ∃ s, (runBody cmd args session_id w L).result = .ok s) := by
  refine ⟨?_, runBody_ok_of_dialogsOk cmd args session_id w L⟩
  unfold run_command
  rcases h : runBody cmd args session_id w L with ⟨res, L', tr⟩
  cases res with
  | ok s => exact Or.inl ⟨s, rfl, rfl⟩
  | error e => exact Or.inr ⟨e, rfl, rfl⟩

end Terminal

namespace Terminal

/-- An unexpired entry survives the purge. -/
theorem purge_keeps (now : Rat) (L : LockSt) (p : String) (i : LockInfo)
    (hi : L p = some i) (hun : now - i.timestamp ≤ 300) :
    purgeLocks now L p = some i := by
  unfold purgeLocks
  rw [hi]
  dsimp only
  rw [if_neg (not_lt.mpr hun)]

/-- Acquisition fails on a path held, unexpired, by a different session. -/
theorem acquire_false_of_held (sid p : String) (now : Rat) (L : LockSt)
    (h : heldByOtherUnexpired sid p now L) :
    (_acquire_lock sid p now L).1 = false := by
  obtain ⟨i, hi, hne, hun⟩ := h
  unfold _acquire_lock
  rw [purge_keeps now L p i hi hun]
  dsimp only
  rw [if_pos hne]

/-- A successful acquisition saves the purged table plus the new lock. -/
theorem acquire_snd_of_success (sid p : String) (now : Rat) (L : LockSt)
    (h : (_acquire_lock sid p now L).1 = true) :
    (_acquire_lock sid p now L).2
      = lockInsert p ⟨sid, now⟩ (purgeLocks now L) := by
  revert h
  unfold _acquire_lock
  cases hp : purgeLocks now L p with
  | none => intro _; rfl
  | some i =>
    dsimp only
    by_cases hne : i.session_id ≠ sid
    · rw [if_pos hne]
      intro h
      simp at h
    · rw [if_neg hne]
      intro _
      rfl

/-- A held-by-other unexpired destination lock survives acquiring the
source lock on a different path. -/
theorem held_after_insert (sid spath dpath : String) (now : Rat) (L : LockSt)
    (h : heldByOtherUnexpired sid dpath now L) (hne : dpath ≠ spath) :
    heldByOtherUnexpired sid dpath now
      (lockInsert spath ⟨sid, now⟩ (purgeLocks now L)) := by
  obtain ⟨i, hi, hs, hun⟩ := h
  refine ⟨i, ?_, hs, hun⟩
  unfold lockInsert
  rw [if_neg hne]
  exact purge_keeps now L dpath i hi hun

/-- Control-flow characterization of the `cp` branch with a source that
exists: exactly one of the five outcomes occurs, with the guards that
led there. -/
theorem cpCore_cases (w : World) (sid src dest : String) (L : LockSt)
    (hsrc : w.pathExists src = true) :
    (truthy (_check_lock sid (w.abspath src) L) = true ∧
      cpCore w sid src dest L =
        ⟨.ok srcBusyMsg, L,
          [.chk (w.abspath src) (_check_lock sid (w.abspath src) L)]⟩) ∨
    (truthy (_check_lock sid (w.abspath src) L) = false ∧
      truthy (_check_lock sid (w.abspath dest) L) = true ∧
      cpCore w sid src dest L =
        ⟨.ok destBusyMsg, L,
          [.chk (w.abspath src) (_check_lock sid (w.abspath src) L),
           .chk (w.abspath dest) (_check_lock sid (w.abspath dest) L)]⟩) ∨
    (truthy (_check_lock sid (w.abspath src) L) = false ∧
      truthy (_check_lock sid (w.abspath dest) L) = false ∧
      (_acquire_lock sid (w.abspath src) w.now L).1 = false ∧
      cpCore w sid src dest L =
        ⟨.ok srcBusyMsg, (_acquire_lock sid (w.abspath src) w.now L).2,
          [.chk (w.abspath src) (_check_lock sid (w.abspath src) L),
           .chk (w.abspath dest) (_check_lock sid (w.abspath dest) L),
           .acq (w.abspath src) false]⟩) ∨
    (truthy (_check_lock sid (w.abspath src) L) = false ∧
      truthy (_check_lock sid (w.abspath dest) L) = false ∧
      (_acquire_lock sid (w.abspath src) w.now L).1 = true ∧
      (_acquire_lock sid (w.abspath dest) w.now
        (_acquire_lock sid (w.abspath src) w.now L).2).1 = false ∧
      cpCore w sid src dest L =
        ⟨.ok destBusyMsg,
          _release_lock sid (w.abspath src)
            (_acquire_lock sid (w.abspath dest) w.now
              (_acquire_lock sid (w.abspath src) w.now L).2).2,
          [.chk (w.abspath src) (_check_lock sid (w.abspath src) L),
           .chk (w.abspath dest) (_check_lock sid (w.abspath dest) L),
           .acq (w.abspath src) true, .acq (w.abspath dest) false,
           .rel (w.abspath src)]⟩) ∨
    (truthy (_check_lock sid (w.abspath src) L) = false ∧
      truthy (_check_lock sid (w.abspath dest) L) = false ∧
      (_acquire_lock sid (w.abspath src) w.now L).1 = true ∧
      (_acquire_lock sid (w.abspath dest) w.now
        (_acquire_lock sid (w.abspath src) w.now L).2).1 = true ∧
      (cpCore w sid src dest L).trace =
        [.chk (w.abspath src) (_check_lock sid (w.abspath src) L),
         .chk (w.abspath dest) (_check_lock sid (w.abspath dest) L),
         .acq (w.abspath src) true, .acq (w.abspath dest) true,
         .fsCopy src dest, .rel (w.abspath src), .rel (w.abspath dest)]) := by
  unfold cpCore
  rw [if_neg (by rw [hsrc]; simp)]
  dsimp only
  by_cases h1 : truthy (_check_lock sid (w.abspath src) L) = true
  · rw [if_pos h1]
    exact Or.inl ⟨h1, rfl⟩
  · rw [if_neg h1]
    have h1' : truthy (_check_lock sid (w.abspath src) L) = false :=
      Bool.eq_false_iff.mpr h1
    by_cases h2 : truthy (_check_lock sid (w.abspath dest) L) = true
    · rw [if_pos h2]
      exact Or.inr (Or.inl ⟨h1', h2, rfl⟩)
    · rw [if_neg h2]
      have h2' : truthy (_check_lock sid (w.abspath dest) L) = false :=
        Bool.eq_false_iff.mpr h2
      by_cases h3 : (_acquire_lock sid (w.abspath src) w.now L).1 = false
      · rw [if_pos h3]
        exact Or.inr (Or.inr (Or.inl ⟨h1', h2', h3, rfl⟩))
      · rw [if_neg h3]
        have h3' : (_acquire_lock sid (w.abspath src) w.now L).1 = true := by
          cases hb : (_acquire_lock sid (w.abspath src) w.now L).1
          · exact absurd hb h3
          · rfl
        by_cases h4 : (_acquire_lock sid (w.abspath dest) w.now
            (_acquire_lock sid (w.abspath src) w.now L).2).1 = false
        · rw [if_pos h4]
          exact Or.inr (Or.inr (Or.inr (Or.inl ⟨h1', h2', h3', h4, rfl⟩)))
        · rw [if_neg h4]
          have h4' : (_acquire_lock sid (w.abspath dest) w.now
              (_acquire_lock sid (w.abspath src) w.now L).2).1 = true := by
            cases hb : (_acquire_lock sid (w.abspath dest) w.now
                (_acquire_lock sid (w.abspath src) w.now L).2).1
            · exact absurd hb h4
            · rfl
          exact Or.inr (Or.inr (Or.inr (Or.inr ⟨h1', h2', h3', h4', rfl⟩)))

/-- Control-flow characterization of the `mv` branch, as for `cp`. -/
theorem mvCore_cases (w : World) (sid src dest : String) (L : LockSt)
    (hsrc : w.pathExists src = true) :
    (truthy (_check_lock sid (w.abspath src) L) = true ∧
      mvCore w sid src dest L =
        ⟨.ok srcBusyMsg, L,
          [.chk (w.abspath src) (_check_lock sid (w.abspath src) L)]⟩) ∨
    (truthy (_check_lock sid (w.abspath src) L) = false ∧
      truthy (_check_lock sid (w.abspath dest) L) = true ∧
      mvCore w sid src dest L =
        ⟨.ok destBusyMsg, L,
          [.chk (w.abspath src) (_check_lock sid (w.abspath src) L),
           .chk (w.abspath dest) (_check_lock sid (w.abspath dest) L)]⟩) ∨
    (truthy (_check_lock sid (w.abspath src) L) = false ∧
      truthy (_check_lock sid (w.abspath dest) L) = false ∧
      (_acquire_lock sid (w.abspath src) w.now L).1 = false ∧
      mvCore w sid src dest L =
        ⟨.ok srcBusyMsg, (_acquire_lock sid (w.abspath src) w.now L).2,
          [.chk (w.abspath src) (_check_lock sid (w.abspath src) L),
           .chk (w.abspath dest) (_check_lock sid (w.abspath dest) L),
           .acq (w.abspath src) false]⟩) ∨
    (truthy (_check_lock sid (w.abspath src) L) = false ∧
      truthy (_check_lock sid (w.abspath dest) L) = false ∧
      (_acquire_lock sid (w.abspath src) w.now L).1 = true ∧
      (_acquire_lock sid (w.abspath dest) w.now
        (_acquire_lock sid (w.abspath src) w.now L).2).1 = false ∧
      mvCore w sid src dest L =
        ⟨.ok destBusyMsg,
          _release_lock sid (w.abspath src)
            (_acquire_lock sid (w.abspath dest) w.now
              (_acquire_lock sid (w.abspath src) w.now L).2).2,
          [.chk (w.abspath src) (_check_lock sid (w.abspath src) L),
           .chk (w.abspath dest) (_check_lock sid (w.abspath dest) L),
           .acq (w.abspath src) true, .acq (w.abspath dest) false,
           .rel (w.abspath src)]⟩) ∨
    (truthy (_check_lock sid (w.abspath src) L) = false ∧
      truthy (_check_lock sid (w.abspath dest) L) = false ∧
      (_acquire_lock sid (w.abspath src) w.now L).1 = true ∧
      (_acquire_lock sid (w.abspath dest) w.now
        (_acquire_lock sid (w.abspath src) w.now L).2).1 = true ∧
      (mvCore w sid src dest L).trace =
        [.chk (w.abspath src) (_check_lock sid (w.abspath src) L),
         .chk (w.abspath dest) (_check_lock sid (w.abspath dest) L),
         .acq (w.abspath src) true, .acq (w.abspath dest) true,
         .fsMove src dest, .rel (w.abspath src), .rel (w.abspath dest)]) := by
  unfold mvCore
  rw [if_neg (by rw [hsrc]; simp)]
  dsimp only
  by_cases h1 : truthy (_check_lock sid (w.abspath src) L) = true
  · rw [if_pos h1]
    exact Or.inl ⟨h1, rfl⟩
  · rw [if_neg h1]
    have h1' : truthy (_check_lock sid (w.abspath src) L) = false :=
      Bool.eq_false_iff.mpr h1
    by_cases h2 : truthy (_check_lock sid (w.abspath dest) L) = true
    · rw [if_pos h2]
      exact Or.inr (Or.inl ⟨h1', h2, rfl⟩)
    · rw [if_neg h2]
      have h2' : truthy (_check_lock sid (w.abspath dest) L) = false :=
        Bool.eq_false_iff.mpr h2
      by_cases h3 : (_acquire_lock sid (w.abspath src) w.now L).1 = false
      · rw [if_pos h3]
        exact Or.inr (Or.inr (Or.inl ⟨h1', h2', h3, rfl⟩))
      · rw [if_neg h3]
        have h3' : (_acquire_lock sid (w.abspath src) w.now L).1 = true := by
          cases hb : (_acquire_lock sid (w.abspath src) w.now L).1
          · exact absurd hb h3
          · rfl
        by_cases h4 : (_acquire_lock sid (w.abspath dest) w.now
            (_acquire_lock sid (w.abspath src) w.now L).2).1 = false
        · rw [if_pos h4]
          exact Or.inr (Or.inr (Or.inr (Or.inl ⟨h1', h2', h3', h4, rfl⟩)))
        · rw [if_neg h4]
          have h4' : (_acquire_lock sid (w.abspath dest) w.now
              (_acquire_lock sid (w.abspath src) w.now L).2).1 = true := by
            cases hb : (_acquire_lock sid (w.abspath dest) w.now
                (_acquire_lock sid (w.abspath src) w.now L).2).1
            · exact absurd hb h4
            · rfl
          exact Or.inr (Or.inr (Or.inr (Or.inr ⟨h1', h2', h3', h4', rfl⟩)))

end Terminal

namespace Terminal

/-- C3 counterexample: with a nonexistent source and the destination's
absolute path held by a different, unexpired session, `cp` (and `mv`)
with explicit arguments return "Error: nosrc does not exist" — not a
busy message — because the source-existence check precedes every lock
check. -/
theorem cp_mv_busy_counterexample :
    heldByOtherUnexpired "s1" (c3World.abspath "d") c3World.now c3Locks ∧
    (cpCore c3World "s1" "nosrc" "d" c3Locks).result
      = .ok "Error: nosrc does not exist" ∧
    (cpCore c3World "s1" "nosrc" "d" c3Locks).result ≠ .ok srcBusyMsg ∧
    (cpCore c3World "s1" "nosrc" "d" c3Locks).result ≠ .ok destBusyMsg ∧
    (mvCore c3World "s1" "nosrc" "d" c3Locks).result
      = .ok "Error: nosrc does not exist" := by
  refine ⟨⟨⟨"s2", 0⟩, ?_, ?_, ?_⟩, ?_, ?_, ?_, ?_⟩
  · simp [c3World, c3Locks]
  · decide
  · simp [c3World]
    norm_num
  · rfl
  · simp [cpCore, c3World, srcBusyMsg]
  · simp [cpCore, c3World, destBusyMsg]
  · rfl

/-- C3 (amended): for `cp` and `mv` invoked with explicit source and
destination arguments, **provided the source path exists** (a
nonexistent source short-circuits to a plain error before any lock is
consulted): if either path is held by a different unexpired session, or
lock acquisition on either path fails, the operation returns a busy
message without performing any copy or move; when the destination
acquisition fails after the source lock was acquired, the source lock is
released before returning; and every lock the call acquired — including
on the success and filesystem-error paths, which release both — is
released before returning. -/
theorem cp_mv_lock_protocol (w : World) (sid src dest : String) (L : LockSt)
    (hsrc : w.pathExists src = true) :
    lockProtocolOK w sid src dest L (cpCore w sid src dest L) ∧
    lockProtocolOK w sid src dest L (mvCore w sid src dest L) := by
  constructor
  · have hc := cpCore_cases w sid src dest L hsrc
    unfold lockProtocolOK noCopyMove acqRelBalanced
    rcases hc with ⟨h1, heq⟩ | ⟨h1, h2, heq⟩ | ⟨h1, h2, h3, heq⟩ |
      ⟨h1, h2, h3, h4, heq⟩ | ⟨h1, h2, h3, h4, htr⟩
    · rw [heq]
      refine ⟨fun _ => ⟨Or.inl rfl, ?_⟩, fun hmem => ?_, fun p hp => ?_⟩
      · intro a b
        exact ⟨by simp, by simp⟩
      · rcases hmem with ⟨ht, _⟩
        simp at ht
      · simp at hp
    · rw [heq]
      refine ⟨fun _ => ⟨Or.inr rfl, ?_⟩, fun hmem => ?_, fun p hp => ?_⟩
      · intro a b
        exact ⟨by simp, by simp⟩
      · rcases hmem with ⟨ht, _⟩
        simp at ht
      · simp at hp
    · rw [heq]
      refine ⟨fun _ => ⟨Or.inl rfl, ?_⟩, fun hmem => ?_, fun p hp => ?_⟩
      · intro a b
        exact ⟨by simp, by simp⟩
      · rcases hmem with ⟨ht, _⟩
        simp at ht
      · simp at hp
    · rw [heq]
      refine ⟨fun _ => ⟨Or.inr rfl, ?_⟩, fun _ => ?_, fun p hp => ?_⟩
      · intro a b
        exact ⟨by simp, by simp⟩
      · simp
      · simp at hp
        subst hp
        simp
    · refine ⟨fun htrig => ?_, fun hmem => ?_, fun p hp => ?_⟩
      · exfalso
        rcases htrig with hs | hd | ⟨q, hq⟩
        · have := acquire_false_of_held sid (w.abspath src) w.now L hs
          rw [h3] at this
          simp at this
        · have hnesp : w.abspath dest ≠ w.abspath src := by
            intro he
            have := acquire_false_of_held sid (w.abspath src) w.now L (he ▸ hd)
            rw [h3] at this
            simp at this
          have hheld2 := held_after_insert sid (w.abspath src) (w.abspath dest)
            w.now L hd hnesp
          rw [← acquire_snd_of_success sid (w.abspath src) w.now L h3] at hheld2
          have := acquire_false_of_held sid (w.abspath dest) w.now _ hheld2
          rw [h4] at this
          simp at this
        · rw [htr] at hq
          simp at hq
      · rcases hmem with ⟨_, hf⟩
        rw [htr] at hf
        simp at hf
      · rw [htr] at hp ⊢
        simp at hp
        rcases hp with hp | hp <;> (subst hp; simp)
  · have hc := mvCore_cases w sid src dest L hsrc
    unfold lockProtocolOK noCopyMove acqRelBalanced
    rcases hc with ⟨h1, heq⟩ | ⟨h1, h2, heq⟩ | ⟨h1, h2, h3, heq⟩ |
      ⟨h1, h2, h3, h4, heq⟩ | ⟨h1, h2, h3, h4, htr⟩
    · rw [heq]
      refine ⟨fun _ => ⟨Or.inl rfl, ?_⟩, fun hmem => ?_, fun p hp => ?_⟩
      · intro a b
        exact ⟨by simp, by simp⟩
      · rcases hmem with ⟨ht, _⟩
        simp at ht
      · simp at hp
    · rw [heq]
      refine ⟨fun _ => ⟨Or.inr rfl, ?_⟩, fun hmem => ?_, fun p hp => ?_⟩
      · intro a b
        exact ⟨by simp, by simp⟩
      · rcases hmem with ⟨ht, _⟩
        simp at ht
      · simp at hp
    · rw [heq]
      refine ⟨fun _ => ⟨Or.inl rfl, ?_⟩, fun hmem => ?_, fun p hp => ?_⟩
      · intro a b
        exact ⟨by simp, by simp⟩
      · rcases hmem with ⟨ht, _⟩
        simp at ht
      · simp at hp
    · rw [heq]
      refine ⟨fun _ => ⟨Or.inr rfl, ?_⟩, fun _ => ?_, fun p hp => ?_⟩
      · intro a b
        exact ⟨by simp, by simp⟩
      · simp
      · simp at hp
        subst hp
        simp
    · refine ⟨fun htrig => ?_, fun hmem => ?_, fun p hp => ?_⟩
      · exfalso
        rcases htrig with hs | hd | ⟨q, hq⟩
        · have := acquire_false_of_held sid (w.abspath src) w.now L hs
          rw [h3] at this
          simp at this
        · have hnesp : w.abspath dest ≠ w.abspath src := by
            intro he
            have := acquire_false_of_held sid (w.abspath src) w.now L (he ▸ hd)
            rw [h3] at this
            simp at this
          have hheld2 := held_after_insert sid (w.abspath src) (w.abspath dest)
            w.now L hd hnesp
          rw [← acquire_snd_of_success sid (w.abspath src) w.now L h3] at hheld2
          have := acquire_false_of_held sid (w.abspath dest) w.now _ hheld2
          rw [h4] at this
          simp at this
        · rw [htr] at hq
          simp at hq
      · rcases hmem with ⟨_, hf⟩
        rw [htr] at hf
        simp at hf
      · rw [htr] at hp ⊢
        simp at hp
        rcases hp with hp | hp <;> (subst hp; simp)

/-- C3 witness: the amended statement instantiated on `c3WitWorld`
(source exists; the destination's absolute path is locked by session
`"s2"`, unexpired at time 100). -/
theorem cp_mv_lock_protocol_witness :
    lockProtocolOK c3WitWorld "s1" "s" "d" c3Locks
      (cpCore c3WitWorld "s1" "s" "d" c3Locks) ∧
    lockProtocolOK c3WitWorld "s1" "s" "d" c3Locks
      (mvCore c3WitWorld "s1" "s" "d" c3Locks) :=
  cp_mv_lock_protocol c3WitWorld "s1" "s" "d" c3Locks rfl

end Terminal
